import Mathlib

/-!
Shallow embedding of `scenedetect/_cli/config.py` (PySceneDetect CLI configuration
loader): the validated-value types, the configuration schema (`CONFIG_MAP` /
`CHOICE_MAP`), the structural validator `_validate_structure`, the value parser
`_parse_config`, and the `ConfigRegistry` load / accessor logic.

Python-level conventions of the embedding:
* Python numbers are `Int` for `int` and `Rat` for `float` (all floats appearing in
  the module are decimal literals, represented exactly).
* Fallible constructors return `Option` (`none` = the constructor raised `ValueError`);
  `from_config` factories return `Except String` (`error` = `OptionParseFailure` with
  the given message).
* The only exception that can escape `_parse_config` is Python's `KeyError` from an
  enum-member lookup (the surrounding handlers catch `ValueError` and `TypeError`
  only), so `_parse_config` returns `Except PyExn`.
* File I/O is a function from paths to optional file contents; a present file either
  tokenizes to a raw section/option mapping or fails with a parser/OS error message.
-/

/-! ## Python numeric / string primitives -/

/-- Numeric value of a list of decimal digit characters. -/
def digitsVal (cs : List Char) : Nat :=
  cs.foldl (fun n c => 10 * n + (c.toNat - 48)) 0

/-- True iff `cs` is a nonempty run of decimal digits. -/
def allDigits (cs : List Char) : Bool :=
  !cs.isEmpty && cs.all Char.isDigit

/-- Python `str.strip()` (also the stripping done by `str.split()` callers): drops
leading and trailing whitespace. Implemented on the character list so that it is a
structural recursion the kernel can evaluate. -/
def pyStrip (s : String) : String :=
  String.mk (((s.data.dropWhile Char.isWhitespace).reverse.dropWhile Char.isWhitespace).reverse)

/-- Python `str.replace("\n", " ")`. -/
def replaceNL (s : String) : String :=
  String.mk (s.data.map (fun c => if c = '\n' then ' ' else c))

/-- Python `str.replace("\t", "  ")`. -/
def replaceTab (s : String) : String :=
  String.mk (s.data.flatMap (fun c => if c = '\t' then [' ', ' '] else [c]))

/-- Python `str.upper()` (the inputs here are ASCII). -/
def pyUpper (s : String) : String :=
  String.mk (s.data.map Char.toUpper)

/-- Python `str.lower()` (the inputs here are ASCII). -/
def pyLower (s : String) : String :=
  String.mk (s.data.map Char.toLower)

/-- Splits a character list at every separator position (keeping empty pieces). -/
def splitCharsAux (p : Char → Bool) : List Char → List Char → List String
  | [], acc => [String.mk acc.reverse]
  | c :: rest, acc =>
    if p c then String.mk acc.reverse :: splitCharsAux p rest []
    else splitCharsAux p rest (c :: acc)

/-- Splits a string at every character satisfying `p` (keeping empty pieces), like
`String.split`. -/
def pySplit (s : String) (p : Char → Bool) : List String :=
  splitCharsAux p s.data []

/-- Python `str.split()` with no arguments: split on whitespace runs, no empty
pieces. -/
def pySplitWS (s : String) : List String :=
  (pySplit s Char.isWhitespace).filter (fun p => p ≠ "")

/-- `", ".join(items)`. -/
def joinCommaSpace : List String → String
  | [] => ""
  | [x] => x
  | x :: rest => x ++ ", " ++ joinCommaSpace rest

/-- Python `int(str)` on an already-stripped character list: optional sign followed by
digits. (Underscore separators and non-decimal bases accepted by CPython are beyond the
inputs this module sees and are not modelled.) -/
def pyIntCore (cs : List Char) : Option Int :=
  match cs with
  | '+' :: rest => if allDigits rest then some (Int.ofNat (digitsVal rest)) else Option.none
  | '-' :: rest => if allDigits rest then some (-(Int.ofNat (digitsVal rest))) else Option.none
  | _ => if allDigits cs then some (Int.ofNat (digitsVal cs)) else Option.none

/-- Python `int(str)`: surrounding whitespace is ignored, then sign and digits. -/
def pyInt (s : String) : Option Int :=
  pyIntCore (pyStrip s).data

/-- Unsigned part of Python `float(str)`: digits, or digits with a single decimal
point (at least one digit overall). Exponent / inf / nan forms are outside the
decimal inputs this module works with and are not modelled. -/
def pyFloatMag (cs : List Char) : Option Rat :=
  let ip := cs.takeWhile (fun c => c ≠ '.')
  match cs.dropWhile (fun c => c ≠ '.') with
  | [] => if allDigits cs then some ((digitsVal cs : Nat) : Rat) else Option.none
  | _ :: frac =>
    if ip.isEmpty && frac.isEmpty then Option.none
    else if ip.all Char.isDigit && frac.all Char.isDigit then
      some (((digitsVal ip : Nat) : Rat) + ((digitsVal frac : Nat) : Rat) / ((10 : Rat) ^ frac.length))
    else Option.none

/-- Python `float(str)` on a stripped character list: optional sign and magnitude. -/
def pyFloatCore (cs : List Char) : Option Rat :=
  match cs with
  | '+' :: rest => pyFloatMag rest
  | '-' :: rest => (pyFloatMag rest).map Neg.neg
  | _ => pyFloatMag cs

/-- Python `float(str)`: surrounding whitespace is ignored. -/
def pyFloat (s : String) : Option Rat :=
  pyFloatCore (pyStrip s).data

/-- `configparser.ConfigParser.BOOLEAN_STATES`. -/
def BOOLEAN_STATES : List (String × Bool) :=
  [("1", true), ("yes", true), ("true", true), ("on", true),
   ("0", false), ("no", false), ("false", false), ("off", false)]

/-- `ConfigParser.getboolean`: the lowercased value must be a key of
`BOOLEAN_STATES`, otherwise `ValueError` (modelled as `none`). -/
def getboolean (s : String) : Option Bool :=
  BOOLEAN_STATES.lookup (pyLower s)

/-- Left-pad a numeral string with zeros to length `k`. -/
def padLeftZeros (s : String) (k : Nat) : String :=
  String.mk (List.replicate (k - s.length) '0') ++ s

/-- Python `str()` of a float, for the exact decimal values used by this module:
integral rationals render as `n.0`; rationals with a power-of-ten denominator render
with their (minimal) decimal expansion; anything else falls back to a fraction form
(never reached by the schema's values). -/
def ratPyStr (q : Rat) : String :=
  if q.den == 1 then toString q.num ++ ".0"
  else
    match (List.range 12).find? (fun k => (10 ^ k) % q.den == 0) with
    | some k =>
      let scaled : Int := q.num * (((10 ^ k) / q.den : Nat) : Int)
      let sign := if scaled < 0 then "-" else ""
      let n := scaled.natAbs
      sign ++ toString (n / 10 ^ k) ++ "." ++ padLeftZeros (toString (n % 10 ^ k)) k
    | Option.none => toString q.num ++ "/" ++ toString q.den

/-! ## Python numbers (`int` / `float`) -/

/-- A Python number: `int` or `float` (exact decimal, as `Rat`). -/
inductive PyNum where
  | i (z : Int)
  | f (q : Rat)
deriving DecidableEq, Repr

/-- Numeric comparison value (Python compares `int` and `float` numerically). -/
def PyNum.toRat : PyNum → Rat
  | .i z => (z : Rat)
  | .f q => q

/-- Python `isinstance(x, int)` for a number (no bools occur in `RangeValue`s). -/
def PyNum.isInt : PyNum → Bool
  | .i _ => true
  | .f _ => false

/-- Python `str()` of a number. -/
def PyNum.pyStr : PyNum → String
  | .i z => toString z
  | .f q => ratPyStr q

/-! ## Validated value types -/

/-- Payload of `TimecodeValue`: the original representation is stored
(`Union[int, float, str]`). -/
inductive TimecodeRep where
  | i (z : Int)
  | f (q : Rat)
  | s (str : String)
deriving DecidableEq, Repr

/-- Does `s` look like `H:M:S` / `H:M:S.fff`? Part of the `FrameTimecode` model. -/
def isHMS (s : String) : Bool :=
  match pySplit s (fun c => c == ':') with
  | [h, m, sec] => allDigits h.data && allDigits m.data && (pyFloatMag sec.data).isSome
  | _ => false

/-- Modelled from the spec: `FrameTimecode(timecode=value, fps=100.0)` is defined in
`scenedetect.frame_timecode`, outside the embedded module; per the spec a string
timecode must be "a frame count, a seconds quantity, or an HH:MM:SS[.fff] string"
(seconds may carry an `s` suffix, as in the schema default `0.6s`); the construction is
used purely as a syntax check. -/
def frameTimecodeStringOk (s : String) : Bool :=
  (pyFloat s).isSome ||
    (s.data.getLast? == some 's' && (pyFloat (String.mk s.data.dropLast)).isSome) || isHMS s

/-- `TimecodeValue.from_config`: validates the raw string and stores it unchanged;
`ValueError` becomes an `OptionParseFailure` with a fixed message. -/
def TimecodeValue.from_config (config_value : String) : Except String TimecodeRep :=
  if frameTimecodeStringOk config_value then Except.ok (TimecodeRep.s config_value)
  else Except.error "Timecodes must be in seconds (100.0), frames (100), or HH:MM:SS."

/-- `RangeValue`: validator for int/float ranges; `min_val` and `max_val` are
inclusive. A constructed value always came through `RangeValue.init?`. -/
structure RangeValue where
  value : PyNum
  min_val : PyNum
  max_val : PyNum
deriving DecidableEq, Repr

/-- `RangeValue.__init__`: raises `ValueError` (here `none`) iff
`value < min_val or value > max_val`. -/
def RangeValue.init? (value min_val max_val : PyNum) : Option RangeValue :=
  if value.toRat < min_val.toRat ∨ value.toRat > max_val.toRat then Option.none
  else some ⟨value, min_val, max_val⟩

/-- The `OptionParseFailure` message of `RangeValue.from_config`:
`"Value must be between %s and %s." % (default.min_val, default.max_val)`. -/
def rangeMsg (default : RangeValue) : String :=
  "Value must be between " ++ default.min_val.pyStr ++ " and " ++ default.max_val.pyStr ++ "."

/-- `RangeValue.from_config`: parses the text with `int()` when the default's value is
an `int` (`isinstance(default.value, int)`) and with `float()` otherwise, then applies
the range constructor with the default's bounds; any `ValueError` becomes an
`OptionParseFailure`. -/
def RangeValue.from_config (config_value : String) (default : RangeValue) : Except String RangeValue :=
  let parsed : Option PyNum :=
    if default.value.isInt then (pyInt config_value).map PyNum.i
    else (pyFloat config_value).map PyNum.f
  match parsed with
  | Option.none => Except.error (rangeMsg default)
  | some v =>
    match RangeValue.init? v default.min_val default.max_val with
    | Option.none => Except.error (rangeMsg default)
    | some r => Except.ok r

/-- `ContentDetector.Components`: named 4-tuple of score weights. -/
structure Components where
  delta_hue : Rat
  delta_sat : Rat
  delta_lum : Rat
  delta_edges : Rat
deriving DecidableEq, Repr

/-- Modelled from the spec: `ContentDetector.DEFAULT_COMPONENT_WEIGHTS` is imported
from `scenedetect.detectors` (not under the embedded module); the standard weights are
`(1.0, 1.0, 1.0, 0.0)`. Its exact value does not affect any claim. -/
def DEFAULT_COMPONENT_WEIGHTS : Components := ⟨1, 1, 1, 0⟩

/-- `ScoreWeightsValue.__init__` on a string: the characters `,/()` are replaced by
spaces, the result is whitespace-split, and exactly four floats are required. -/
def ScoreWeightsValue.fromString (s : String) : Option Components :=
  let t := String.mk (s.data.map (fun c => if c == ',' || c == '/' || c == '(' || c == ')' then ' ' else c))
  let values := pySplitWS t
  match values with
  | [a, b, c, d] =>
    match pyFloat a, pyFloat b, pyFloat c, pyFloat d with
    | some x, some y, some z, some w => some ⟨x, y, z, w⟩
    | _, _, _, _ => Option.none
  | _ => Option.none

/-- `ScoreWeightsValue.from_config`. -/
def ScoreWeightsValue.from_config (config_value : String) : Except String Components :=
  match ScoreWeightsValue.fromString config_value with
  | some w => Except.ok w
  | Option.none =>
    Except.error ("Score weights must be specified as four numbers in the form (H,S,L,E)," ++
      " e.g. (0.9, 0.2, 2.0, 0.5). Commas/brackets/slashes are ignored.")

/-- `KernelSizeValue.__init__`: `-1` maps to `None` (auto), other negative values and
even values raise `ValueError`, odd positive values are stored unchanged. -/
def KernelSizeValue.init? (value : Int) : Option (Option Int) :=
  if value = -1 then some Option.none
  else if value < 0 then Option.none
  else if value % 2 = 0 then Option.none
  else some (some value)

/-- `KernelSizeValue.from_config`: `int()` then the constructor; either `ValueError`
becomes the same `OptionParseFailure` message. -/
def KernelSizeValue.from_config (config_value : String) : Except String (Option Int) :=
  match pyInt config_value with
  | Option.none =>
    Except.error "Value must be an odd integer greater than 1, or set to -1 for auto kernel size."
  | some z =>
    match KernelSizeValue.init? z with
    | Option.none =>
      Except.error "Value must be an odd integer greater than 1, or set to -1 for auto kernel size."
    | some k => Except.ok k

/-! ## Enumerated values -/

/-- A Python `Enum` member, identified by its class and member name. -/
structure EnumVal where
  cls : String
  member : String
deriving DecidableEq, Repr

/-- Member names (in declaration order) of the enum classes used by the schema.
`TimecodeFormat` is declared in the embedded module itself; modelled from the spec:
`FlashFilter.Mode` (from `scenedetect.scene_detector`) and `Interpolation` (from
`scenedetect.scene_manager`) are imported from modules outside the embedded file. -/
def enumMembers : String → List String
  | "FlashFilter.Mode" => ["MERGE", "SUPPRESS"]
  | "Interpolation" => ["NEAREST", "LINEAR", "CUBIC", "AREA", "LANCZOS4"]
  | "TimecodeFormat" => ["FRAMES", "TIMECODE", "SECONDS"]
  | _ => []

/-- Python `EnumClass[name]`: returns the member, or raises `KeyError` when `name` is
not a member (modelled by `none`; note `KeyError`, never `TypeError`). -/
def enumLookup (cls name : String) : Option EnumVal :=
  if (enumMembers cls).contains name then some ⟨cls, name⟩ else Option.none

/-! ## Configuration values and the schema -/

/-- A configuration value: the runtime type of a schema default doubles as the type
descriptor during parsing. `none` is Python's `None` (used for `output` defaults and
for the unwrapped auto kernel size); `components` is the plain tuple payload obtained
by unwrapping a `ScoreWeightsValue` (the wrapper itself is `weights`). -/
inductive CfgValue where
  | bool (b : Bool)
  | int (z : Int)
  | float (q : Rat)
  | str (s : String)
  | none
  | enum (e : EnumVal)
  | timecode (t : TimecodeRep)
  | range (r : RangeValue)
  | weights (w : Components)
  | kernel (k : Option Int)
  | components (w : Components)
deriving DecidableEq, Repr

/-- `PYAV_THREADING_MODES`. -/
def PYAV_THREADING_MODES : List String := ["NONE", "SLICE", "FRAME", "AUTO"]

/-- Modelled from the spec: `DEFAULT_FFMPEG_ARGS` is imported from
`scenedetect.video_splitter` (not under the embedded module); it is a plain string of
ffmpeg arguments whose exact text does not affect any claim. -/
def DEFAULT_FFMPEG_ARGS : String :=
  "-map 0:v:0 -map 0:a? -map 0:s? -c:v libx264 -preset veryfast -crf 22 -c:a aac"

/-- `_PLACEHOLDER` for the image quality default. -/
def PLACEHOLDER : Int := 0

/-- `CONFIG_MAP`: mapping of valid configuration file parameters and their default
values, in the declaration order of the source module. -/
def CONFIG_MAP : List (String × List (String × CfgValue)) :=
  [ ("backend-opencv",
      [ ("max-decode-attempts", CfgValue.int 5) ]),
    ("backend-pyav",
      [ ("suppress-output", CfgValue.bool false),
        ("threading-mode", CfgValue.str "auto") ]),
    ("detect-adaptive",
      [ ("frame-window", CfgValue.int 2),
        ("kernel-size", CfgValue.kernel Option.none),
        ("luma-only", CfgValue.bool false),
        ("min-content-val", CfgValue.range ⟨PyNum.f 15, PyNum.f 0, PyNum.f 255⟩),
        ("min-delta-hsv", CfgValue.range ⟨PyNum.f 15, PyNum.f 0, PyNum.f 255⟩),
        ("min-scene-len", CfgValue.timecode (TimecodeRep.i 0)),
        ("threshold", CfgValue.range ⟨PyNum.f 3, PyNum.f 0, PyNum.f 255⟩),
        ("weights", CfgValue.weights DEFAULT_COMPONENT_WEIGHTS) ]),
    ("detect-content",
      [ ("filter-mode", CfgValue.enum ⟨"FlashFilter.Mode", "MERGE"⟩),
        ("kernel-size", CfgValue.kernel Option.none),
        ("luma-only", CfgValue.bool false),
        ("min-scene-len", CfgValue.timecode (TimecodeRep.i 0)),
        ("threshold", CfgValue.range ⟨PyNum.f 27, PyNum.f 0, PyNum.f 255⟩),
        ("weights", CfgValue.weights DEFAULT_COMPONENT_WEIGHTS) ]),
    ("detect-hash",
      [ ("min-scene-len", CfgValue.timecode (TimecodeRep.i 0)),
        ("lowpass", CfgValue.range ⟨PyNum.i 2, PyNum.i 1, PyNum.i 256⟩),
        ("size", CfgValue.range ⟨PyNum.i 16, PyNum.i 1, PyNum.i 256⟩),
        ("threshold", CfgValue.range ⟨PyNum.f 0.395, PyNum.f 0, PyNum.f 1⟩) ]),
    ("detect-hist",
      [ ("min-scene-len", CfgValue.timecode (TimecodeRep.i 0)),
        ("threshold", CfgValue.range ⟨PyNum.f 0.05, PyNum.f 0, PyNum.f 1⟩),
        ("bins", CfgValue.range ⟨PyNum.i 256, PyNum.i 1, PyNum.i 256⟩) ]),
    ("detect-threshold",
      [ ("add-last-scene", CfgValue.bool true),
        ("fade-bias", CfgValue.range ⟨PyNum.i 0, PyNum.f (-100), PyNum.f 100⟩),
        ("min-scene-len", CfgValue.timecode (TimecodeRep.i 0)),
        ("threshold", CfgValue.range ⟨PyNum.f 12, PyNum.f 0, PyNum.f 255⟩) ]),
    ("load-scenes",
      [ ("start-col-name", CfgValue.str "Start Frame") ]),
    ("export-html",
      [ ("filename", CfgValue.str "$VIDEO_NAME-Scenes.html"),
        ("image-height", CfgValue.int 0),
        ("image-width", CfgValue.int 0),
        ("no-images", CfgValue.bool false),
        ("show", CfgValue.bool false) ]),
    ("list-scenes",
      [ ("cut-format", CfgValue.enum ⟨"TimecodeFormat", "TIMECODE"⟩),
        ("display-cuts", CfgValue.bool true),
        ("display-scenes", CfgValue.bool true),
        ("filename", CfgValue.str "$VIDEO_NAME-Scenes.csv"),
        ("output", CfgValue.none),
        ("no-output-file", CfgValue.bool false),
        ("quiet", CfgValue.bool false),
        ("skip-cuts", CfgValue.bool false) ]),
    ("global",
      [ ("backend", CfgValue.str "opencv"),
        ("default-detector", CfgValue.str "detect-adaptive"),
        ("downscale", CfgValue.int 0),
        ("downscale-method", CfgValue.enum ⟨"Interpolation", "LINEAR"⟩),
        ("drop-short-scenes", CfgValue.bool false),
        ("frame-skip", CfgValue.int 0),
        ("merge-last-scene", CfgValue.bool false),
        ("min-scene-len", CfgValue.timecode (TimecodeRep.s "0.6s")),
        ("output", CfgValue.none),
        ("verbosity", CfgValue.str "info") ]),
    ("save-images",
      [ ("compression", CfgValue.range ⟨PyNum.i 3, PyNum.i 0, PyNum.i 9⟩),
        ("filename", CfgValue.str "$VIDEO_NAME-Scene-$SCENE_NUMBER-$IMAGE_NUMBER"),
        ("format", CfgValue.str "jpeg"),
        ("frame-margin", CfgValue.int 1),
        ("height", CfgValue.int 0),
        ("num-images", CfgValue.int 3),
        ("output", CfgValue.none),
        ("quality", CfgValue.range ⟨PyNum.i PLACEHOLDER, PyNum.i 0, PyNum.i 100⟩),
        ("scale", CfgValue.float 1),
        ("scale-method", CfgValue.enum ⟨"Interpolation", "LINEAR"⟩),
        ("width", CfgValue.int 0) ]),
    ("save-qp",
      [ ("disable-shift", CfgValue.bool false),
        ("filename", CfgValue.str "$VIDEO_NAME.qp"),
        ("output", CfgValue.none) ]),
    ("split-video",
      [ ("args", CfgValue.str DEFAULT_FFMPEG_ARGS),
        ("copy", CfgValue.bool false),
        ("filename", CfgValue.str "$VIDEO_NAME-Scene-$SCENE_NUMBER"),
        ("high-quality", CfgValue.bool false),
        ("mkvmerge", CfgValue.bool false),
        ("output", CfgValue.none),
        ("preset", CfgValue.str "veryfast"),
        ("quiet", CfgValue.bool false),
        ("rate-factor", CfgValue.range ⟨PyNum.i 22, PyNum.i 0, PyNum.i 100⟩) ]) ]

/-- `CHOICE_MAP`: string options restricted to a set of values (stored lowercase;
comparison is case-insensitive). Note the source really spells the first key
`threading_mode` with an underscore, while the schema option is `threading-mode`. -/
def CHOICE_MAP : List (String × List (String × List String)) :=
  [ ("backend-pyav",
      [ ("threading_mode", PYAV_THREADING_MODES.map pyLower) ]),
    ("detect-content",
      [ ("filter-mode", (enumMembers "FlashFilter.Mode").map pyLower) ]),
    ("global",
      [ ("backend", ["opencv", "pyav", "moviepy"]),
        ("default-detector",
          ["detect-adaptive", "detect-content", "detect-threshold", "detect-hash", "detect-hist"]),
        ("downscale-method", (enumMembers "Interpolation").map pyLower),
        ("verbosity", ["debug", "info", "warning", "error", "none"]) ]),
    ("list-scenes",
      [ ("cut-format", (enumMembers "TimecodeFormat").map pyLower) ]),
    ("save-images",
      [ ("format", ["jpeg", "png", "webp"]),
        ("scale-method", (enumMembers "Interpolation").map pyLower) ]),
    ("split-video",
      [ ("preset",
          ["ultrafast", "superfast", "veryfast", "faster", "fast", "medium",
           "slow", "slower", "veryslow"]) ]) ]

/-- Lookup of a schema default: `option in CONFIG_MAP[command]`. -/
def schemaLookup (command opt : String) : Option CfgValue :=
  (CONFIG_MAP.lookup command).bind (fun opts => opts.lookup opt)

/-- Lookup of a choice list: `command in CHOICE_MAP and option in CHOICE_MAP[command]`. -/
def choiceLookup (command opt : String) : Option (List String) :=
  (CHOICE_MAP.lookup command).bind (fun opts => opts.lookup opt)

/-! ## Raw (tokenized) configuration files -/

/-- The result of `ConfigParser` tokenizing a file: sections in file order, each an
ordered list of `(option, raw string value)` pairs (option names already lowercased by
the parser, multi-line values joined with a line break). -/
abbrev RawConfig := List (String × List (String × String))

/-- `command in config and option in config[command]`, returning the raw value
(`config.get(command, option)`). -/
def rawLookup (config : RawConfig) (command opt : String) : Option String :=
  (config.lookup command).bind (fun opts => opts.lookup opt)

/-! ## Structural validation -/

/-- `_validate_structure`: walks every section of the raw config in order; an unknown
section yields one error and its options are skipped (`continue`); within a known
section, each option missing from the schema yields one error. No early exit, and the
embedding is a pure function of the raw config (it mutates nothing). -/
def _validate_structure : RawConfig → List String
  | [] => []
  | (name, opts) :: rest =>
    match CONFIG_MAP.lookup name with
    | Option.none =>
      ("Unsupported config section: [" ++ name ++ "]") :: _validate_structure rest
    | some schema_opts =>
      opts.filterMap (fun q =>
        if (schema_opts.lookup q.1).isSome then Option.none
        else some ("Unsupported config option in [" ++ name ++ "]: " ++ q.1))
        ++ _validate_structure rest

/-- The contribution of one raw section to the structural error list (used to state
the claims about `_validate_structure`). -/
def structureErrorsOfSection (p : String × List (String × String)) : List String :=
  match CONFIG_MAP.lookup p.1 with
  | Option.none => ["Unsupported config section: [" ++ p.1 ++ "]"]
  | some schema_opts =>
    p.2.filterMap (fun q =>
      if (schema_opts.lookup q.1).isSome then Option.none
      else some ("Unsupported config option in [" ++ p.1 ++ "]: " ++ q.1))

/-! ## Value parsing -/

/-- A Python exception escaping `_parse_config`: the only possibility is the
`KeyError` raised by `CONFIG_MAP[command][option].__class__[config_value]` when the
normalized value is not an enum member — the inner handler catches `TypeError` (which
the lookup never raises) and the outer handler catches `ValueError`, so the `KeyError`
propagates out of the parser. -/
inductive PyExn where
  | keyError (key : String)
deriving DecidableEq, Repr

/-- `"Invalid [%s] value for %s: %s is not a valid %s."`. -/
def errNotValidMsg (command opt raw type_label : String) : String :=
  "Invalid [" ++ command ++ "] value for " ++ opt ++ ": " ++ raw ++
    " is not a valid " ++ type_label ++ "."

/-- `"Invalid [%s] value for %s: %s. Must be one of: %s."`. -/
def errChoicesMsg (command opt raw : String) (choices : List String) : String :=
  "Invalid [" ++ command ++ "] value for " ++ opt ++ ": " ++ raw ++
    ". Must be one of: " ++ joinCommaSpace choices ++ "."

/-- `"Invalid [%s] value for %s:\n  %s\n%s"` (custom validation failure). -/
def errValidatedMsg (command opt raw msg : String) : String :=
  "Invalid [" ++ command ++ "] value for " ++ opt ++ ":\n  " ++ raw ++ "\n" ++ msg

/-- One iteration of the `_parse_config` loop body for schema entry
`(command, opt)` with default `default`: returns the parsed entry (if any) and the
error strings this option contributes (at most one). Mirrors the source dispatch
order: bool / int / float / Enum inside a `try` whose handler catches `ValueError`;
then ValidatedValue subclasses; then the plain-string fallback with choice check. -/
def parseOption (config : RawConfig) (command opt : String) (default : CfgValue) :
    Except PyExn (Option CfgValue × List String) :=
  match rawLookup config command opt with
  | Option.none => Except.ok (Option.none, [])
  | some raw =>
    match default with
    | CfgValue.bool _ =>
      match getboolean raw with
      | some b => Except.ok (some (CfgValue.bool b), [])
      | Option.none => Except.ok (Option.none, [errNotValidMsg command opt raw "yes/no value"])
    | CfgValue.int _ =>
      match pyInt raw with
      | some z => Except.ok (some (CfgValue.int z), [])
      | Option.none => Except.ok (Option.none, [errNotValidMsg command opt raw "integer"])
    | CfgValue.float _ =>
      match pyFloat raw with
      | some q => Except.ok (some (CfgValue.float q), [])
      | Option.none => Except.ok (Option.none, [errNotValidMsg command opt raw "number"])
    | CfgValue.enum e =>
      let config_value := pyUpper (pyStrip (replaceNL raw))
      match enumLookup e.cls config_value with
      | some parsed => Except.ok (some (CfgValue.enum parsed), [])
      | Option.none =>
        -- The lookup raises `KeyError`; the `except TypeError` handler that would
        -- append the "Must be one of" error is dead code, so the exception escapes.
        Except.error (PyExn.keyError config_value)
    | CfgValue.timecode _ =>
      match TimecodeValue.from_config raw with
      | Except.ok t => Except.ok (some (CfgValue.timecode t), [])
      | Except.error m => Except.ok (Option.none, [errValidatedMsg command opt raw m])
    | CfgValue.range d =>
      match RangeValue.from_config raw d with
      | Except.ok r => Except.ok (some (CfgValue.range r), [])
      | Except.error m => Except.ok (Option.none, [errValidatedMsg command opt raw m])
    | CfgValue.weights _ =>
      match ScoreWeightsValue.from_config raw with
      | Except.ok w => Except.ok (some (CfgValue.weights w), [])
      | Except.error m => Except.ok (Option.none, [errValidatedMsg command opt raw m])
    | CfgValue.kernel _ =>
      match KernelSizeValue.from_config raw with
      | Except.ok k => Except.ok (some (CfgValue.kernel k), [])
      | Except.error m => Except.ok (Option.none, [errValidatedMsg command opt raw m])
    | _ =>
      -- Plain string (or `None`) default: normalize, then check the choice list.
      let config_value := pyStrip (replaceNL raw)
      match choiceLookup command opt with
      | some choices =>
        if choices.contains (pyLower config_value) then
          Except.ok (some (CfgValue.str config_value), [])
        else
          Except.ok (Option.none, [errChoicesMsg command opt raw choices])
      | Option.none => Except.ok (some (CfgValue.str config_value), [])

/-- The inner `for option in CONFIG_MAP[command]` loop: builds the section's option
map (insertion in schema order) and accumulates the errors in order. -/
def parseSection (config : RawConfig) (command : String) :
    List (String × CfgValue) → Except PyExn (List (String × CfgValue) × List String)
  | [] => Except.ok ([], [])
  | (opt, default) :: rest =>
    match parseOption config command opt default with
    | Except.error e => Except.error e
    | Except.ok (entry, errs) =>
      match parseSection config command rest with
      | Except.error e => Except.error e
      | Except.ok (m, errs2) =>
        Except.ok ((match entry with
                    | some v => (opt, v) :: m
                    | Option.none => m), errs ++ errs2)

/-- The outer `for command in CONFIG_MAP` loop: every schema section gets an entry in
the output map (`out_map[command] = {}` runs unconditionally). -/
def parseConfigAux (config : RawConfig) :
    List (String × List (String × CfgValue)) →
    Except PyExn (List (String × List (String × CfgValue)) × List String)
  | [] => Except.ok ([], [])
  | (command, schema_opts) :: rest =>
    match parseSection config command schema_opts with
    | Except.error e => Except.error e
    | Except.ok (m, errs) =>
      match parseConfigAux config rest with
      | Except.error e => Except.error e
      | Except.ok (dict, errs2) => Except.ok ((command, m) :: dict, errs ++ errs2)

/-- `_parse_config`: processes the raw config against the whole schema, returning the
resolved map and the accumulated error list (or the escaping `KeyError`). -/
def _parse_config (config : RawConfig) :
    Except PyExn (List (String × List (String × CfgValue)) × List String) :=
  parseConfigAux config CONFIG_MAP

/-- Error strings contributed by one schema option (for stating the accumulation
claims). -/
def optionErrors (config : RawConfig) (command opt : String) (default : CfgValue) :
    List String :=
  match parseOption config command opt default with
  | Except.ok (_, errs) => errs
  | Except.error _ => []

/-! ## The config registry -/

/-- `logging.DEBUG`. -/
def Logging.DEBUG : Nat := 10

/-- `logging.INFO`. -/
def Logging.INFO : Nat := 20

/-- `logging.ERROR`. -/
def Logging.ERROR : Nat := 40

/-- The mutable state of a `ConfigRegistry`: `_config` (options set in the loaded
file), `_init_log` and `_initialized`. -/
structure RegState where
  config : List (String × List (String × CfgValue))
  init_log : List (Nat × String)
  initialized : Bool
deriving DecidableEq, Repr

/-- Outcome of `_load_from_disk`: normal return, a raised `ConfigLoadFailure`
(carrying the optional `reason` string for tokenizer/OS failures), or a raised
non-`ConfigLoadFailure` exception (the parser's escaping `KeyError`). -/
inductive LoadOutcome where
  | ok
  | loadFailure (reason : Option String)
  | uncaught (e : PyExn)
deriving DecidableEq, Repr

/-- The file system as seen by the loader: `none` means `os.path.exists` is false;
`some (Except.error msg)` means the file exists but reading/tokenizing raises
(`ParsingError` / `OSError` with message `msg`); `some (Except.ok raw)` is a
successfully tokenized file. -/
abbrev FileSystem := String → Option (Except String RawConfig)

/-- Modelled from the spec: `CONFIG_FILE_PATH` joins a platform-specific per-user
config directory (`platformdirs.user_config_dir`, an external collaborator) with
`scenedetect.cfg`; only its identity matters here, never its text. -/
def CONFIG_FILE_PATH : String := "user_config_dir/PySceneDetect/scenedetect.cfg"

/-- Lines 591-599 of the source: structural validation, then — only if it produced no
errors — value parsing, whose resolved map is assigned to `self._config` *before* the
error check; any errors are logged and `ConfigLoadFailure` is raised. -/
def loadContent (st : RegState) (content : Except String RawConfig) :
    RegState × LoadOutcome :=
  match content with
  | Except.error msg => (st, LoadOutcome.loadFailure (some msg))
  | Except.ok config =>
    let errors := _validate_structure config
    if errors.isEmpty then
      match _parse_config config with
      | Except.error e => (st, LoadOutcome.uncaught e)
      | Except.ok (m, errors2) =>
        let st := { st with config := m }
        if errors2.isEmpty then (st, LoadOutcome.ok)
        else
          ({ st with init_log := st.init_log ++ errors2.map (fun s => (Logging.ERROR, s)) },
           LoadOutcome.loadFailure Option.none)
    else
      ({ st with init_log := st.init_log ++ errors.map (fun s => (Logging.ERROR, s)) },
       LoadOutcome.loadFailure Option.none)

/-- Python truthiness of the `path` argument (`if path:`): `None` and the empty
string are both falsy. -/
def pathTruthy : Option String → Option String
  | some p => if p = "" then Option.none else some p
  | Option.none => Option.none

/-- `ConfigRegistry._load_from_disk`: path discovery and logging, then
`loadContent`. -/
def _load_from_disk (fs : FileSystem) (st : RegState) (path : Option String) :
    RegState × LoadOutcome :=
  match pathTruthy path with
  | some p =>
    let st := { st with
      init_log := st.init_log ++ [(Logging.INFO, "Loading config from file:\n  " ++ p)] }
    match fs p with
    | Option.none =>
      ({ st with init_log := st.init_log ++ [(Logging.ERROR, "File not found: " ++ p)] },
       LoadOutcome.loadFailure Option.none)
    | some content => loadContent st content
  | Option.none =>
    match fs CONFIG_FILE_PATH with
    | Option.none =>
      ({ st with init_log := st.init_log ++ [(Logging.DEBUG, "User config file not found.")] },
       LoadOutcome.ok)
    | some content =>
      let st := { st with
        init_log := st.init_log ++
          [(Logging.INFO, "Loading user config file:\n  " ++ CONFIG_FILE_PATH)] }
      loadContent st content

/-- Outcome of `ConfigRegistry.__init__`: normal construction, a propagated
`ConfigLoadFailure` (`throw_exception=True`), or a propagated other exception (which
`__init__` never catches, regardless of `throw_exception`). -/
inductive InitOutcome where
  | normal
  | raised
  | uncaughtRaised (e : PyExn)
deriving DecidableEq, Repr

/-- `ConfigRegistry.__init__(path, throw_exception)`: starts from the empty state,
runs `_load_from_disk`, and on success flags the registry initialized. A
`ConfigLoadFailure` is re-raised when `throw_exception` is true; otherwise the state
keeps whatever `_load_from_disk` left in `_config` and `_init_log` (plus an appended
`Error:` entry when the failure carried a reason), with `_initialized = False`. For a
raised outcome the returned state is the object's state at the moment the exception
propagated (the Python object construction fails). -/
def ConfigRegistry.init (fs : FileSystem) (path : Option String) (throw_exception : Bool) :
    RegState × InitOutcome :=
  let st0 : RegState := { config := [], init_log := [], initialized := false }
  match _load_from_disk fs st0 path with
  | (st, LoadOutcome.ok) => ({ st with initialized := true }, InitOutcome.normal)
  | (st, LoadOutcome.loadFailure reason) =>
    if throw_exception then (st, InitOutcome.raised)
    else
      let st := match reason with
        | some r =>
          { st with init_log := st.init_log ++
              [(Logging.ERROR, "Error: " ++ replaceTab r)] }
        | Option.none => st
      ({ st with initialized := false }, InitOutcome.normal)
  | (st, LoadOutcome.uncaught e) => (st, InitOutcome.uncaughtRaised e)

/-! ## Resolution accessors -/

/-- `issubclass(type(value), ValidatedValue)`. -/
def CfgValue.isValidated : CfgValue → Bool
  | CfgValue.timecode _ => true
  | CfgValue.range _ => true
  | CfgValue.weights _ => true
  | CfgValue.kernel _ => true
  | _ => false

/-- The `.value` property of a `ValidatedValue` wrapper (identity on anything the
source never calls it on). -/
def CfgValue.dotValue : CfgValue → CfgValue
  | CfgValue.timecode (TimecodeRep.i z) => CfgValue.int z
  | CfgValue.timecode (TimecodeRep.f q) => CfgValue.float q
  | CfgValue.timecode (TimecodeRep.s s) => CfgValue.str s
  | CfgValue.range r =>
    match r.value with
    | PyNum.i z => CfgValue.int z
    | PyNum.f q => CfgValue.float q
  | CfgValue.weights w => CfgValue.components w
  | CfgValue.kernel (some k) => CfgValue.int k
  | CfgValue.kernel Option.none => CfgValue.none
  | v => v

/-- The last two lines of `get_value`: unwrap a `ValidatedValue`, return anything
else as is. -/
def resolveValue (v : CfgValue) : CfgValue :=
  if v.isValidated then v.dotValue else v

/-- `command in self._config and option in self._config[command]`, returning
`self._config[command][option]`. -/
def cfgLookup (config : List (String × List (String × CfgValue))) (command opt : String) :
    Option CfgValue :=
  (config.lookup command).bind (fun opts => opts.lookup opt)

/-- `ConfigRegistry.get_value`: the `assert` is modelled as returning `none` when the
`(command, option)` pair is not in the schema; a non-`None` override is returned
unconditionally; otherwise the resolved-map entry, else the schema default, unwrapped
when it is a `ValidatedValue`. -/
def ConfigRegistry.get_value (st : RegState) (command opt : String)
    (override : Option CfgValue) : Option CfgValue :=
  if (schemaLookup command opt).isSome then
    match override with
    | some o => some o
    | Option.none =>
      let value := match cfgLookup st.config command opt with
        | some v => v
        | Option.none => (schemaLookup command opt).getD CfgValue.none
      some (resolveValue value)
  else Option.none

/-- `ConfigRegistry.is_default`: true iff the loaded file did not set the option. -/
def ConfigRegistry.is_default (st : RegState) (command opt : String) : Bool :=
  !(cfgLookup st.config command opt).isSome

/-! ## Concrete inputs used by the counterexamples and witnesses -/

/-- The empty registry state (`self._config = {}` etc. at the start of `__init__`). -/
def regEmpty : RegState := ⟨[], [], false⟩

/-- A raw config whose only section is unknown to the schema. -/
def rawBogusSection : RawConfig := [("bogus", [("some-option", "7")])]

/-- A raw config with two independently bad values: an out-of-range threshold in
`[detect-content]` and a malformed boolean in `[global]`. -/
def rawTwoBad : RawConfig :=
  [("detect-content", [("threshold", "300")]), ("global", [("drop-short-scenes", "maybe")])]

/-- A raw config whose only option is an enum-typed one with a non-member label. -/
def rawBadEnum : RawConfig := [("global", [("downscale-method", "bogus")])]

/-- A raw config with a bad label for the enum-typed `[detect-content] filter-mode`. -/
def rawBadFilterMode : RawConfig := [("detect-content", [("filter-mode", "bogus")])]

/-- A raw config with one valid option (`frame-skip = 5`) and one invalid option
(`verbosity = bogus`, a choice-list mismatch) in `[global]`. -/
def rawMix : RawConfig := [("global", [("frame-skip", "5"), ("verbosity", "bogus")])]

/-- A file system whose per-user default config file is `rawMix`. -/
def fsMix : FileSystem :=
  fun p => if p = CONFIG_FILE_PATH then some (Except.ok rawMix) else Option.none

/-- A file system with `rawMix` at the explicit path `my.cfg`. -/
def fsMixAt : FileSystem :=
  fun p => if p = "my.cfg" then some (Except.ok rawMix) else Option.none

/-- A file system with a structurally invalid file at the explicit path `my.cfg`. -/
def fsBogusAt : FileSystem :=
  fun p => if p = "my.cfg" then some (Except.ok rawBogusSection) else Option.none

/-- A file system with a clean single-option file at the explicit path `my.cfg`. -/
def fsCleanAt : FileSystem :=
  fun p => if p = "my.cfg" then some (Except.ok [("global", [("frame-skip", "5")])]) else Option.none

/-- A file system with no files at all. -/
def fsNone : FileSystem := fun _ => Option.none

/-! ## Claim theorems -/

/-- C4: the structural validator emits, section by section in file order with no
early exit, exactly one `unsupported section` error for each section name missing
from the schema (whose options are then skipped entirely), and one
`unsupported option` error per undeclared option of a known section; it is a pure
function of the raw config (no stored state is read or mutated). -/
theorem c4_structural_validator :
    (∀ config : RawConfig, _validate_structure config = config.flatMap structureErrorsOfSection)
    ∧ (∀ (name : String) (opts : List (String × String)),
        CONFIG_MAP.lookup name = Option.none →
        structureErrorsOfSection (name, opts) = ["Unsupported config section: [" ++ name ++ "]"])
    ∧ (∀ (name : String) (opts : List (String × String)) (schema_opts : List (String × CfgValue)),
        CONFIG_MAP.lookup name = some schema_opts →
        structureErrorsOfSection (name, opts) =
          opts.filterMap (fun q =>
            if (schema_opts.lookup q.1).isSome then Option.none
            else some ("Unsupported config option in [" ++ name ++ "]: " ++ q.1))) := by
  refine ⟨?_, ?_, ?_⟩
  · intro config
    induction config with
    | nil => rfl
    | cons p rest ih =>
      obtain ⟨name, opts⟩ := p
      cases h : CONFIG_MAP.lookup name <;>
        simp [_validate_structure, structureErrorsOfSection, h, ih]
  · intro name opts h
    simp [structureErrorsOfSection, h]
  · intro name opts schema_opts h
    simp [structureErrorsOfSection, h]

/-- Witness for C4 at a concrete unknown section. -/
theorem c4_structural_validator_witness :
    CONFIG_MAP.lookup "bogus" = Option.none ∧
    structureErrorsOfSection ("bogus", [("some-option", "7")]) =
      ["Unsupported config section: [" ++ "bogus" ++ "]"] :=
  ⟨by decide, c4_structural_validator.2.1 "bogus" [("some-option", "7")] (by decide)⟩

/-- C5: when structural validation returns any error, the value parser is never run
(the stored map is left untouched, no value-level errors are produced), the
accumulated log gains exactly one `ERROR` entry per structural problem, and the load
raises `ConfigLoadFailure`. -/
theorem c5_structural_errors_abort :
    ∀ (st : RegState) (config : RawConfig), _validate_structure config ≠ [] →
      loadContent st (Except.ok config) =
        ({ st with init_log := st.init_log ++
             (_validate_structure config).map (fun s => (Logging.ERROR, s)) },
         LoadOutcome.loadFailure Option.none) := by
  intro st config h
  cases hE : _validate_structure config with
  | nil => exact absurd hE h
  | cons a l => simp [loadContent, hE]

/-- Witness for C5 at a concrete structurally invalid file. -/
theorem c5_structural_errors_abort_witness :
    _validate_structure rawBogusSection ≠ [] ∧
    loadContent regEmpty (Except.ok rawBogusSection) =
      ({ regEmpty with init_log := regEmpty.init_log ++
           (_validate_structure rawBogusSection).map (fun s => (Logging.ERROR, s)) },
       LoadOutcome.loadFailure Option.none) :=
  ⟨by decide, c5_structural_errors_abort regEmpty rawBogusSection (by decide)⟩

/-- C6: `RangeValue` construction fails exactly when the value lies outside the
inclusive interval `[min_val, max_val]` (so both endpoints succeed), a successful
construction stores the value unchanged, and `from_config` parses the raw text with
the integer reader when the default's value is an integer and with the floating-point
reader otherwise, then applies the same bounds check. -/
theorem c6_range_value :
    (∀ value min_val max_val : PyNum,
        RangeValue.init? value min_val max_val = Option.none ↔
          value.toRat < min_val.toRat ∨ max_val.toRat < value.toRat)
    ∧ (∀ (value min_val max_val : PyNum) (r : RangeValue),
        RangeValue.init? value min_val max_val = some r → r.value = value)
    ∧ (∀ (s : String) (d : RangeValue) (z : Int), d.value.isInt = true → pyInt s = some z →
        RangeValue.from_config s d =
          (match RangeValue.init? (PyNum.i z) d.min_val d.max_val with
           | some r => Except.ok r
           | Option.none => Except.error (rangeMsg d)))
    ∧ (∀ (s : String) (d : RangeValue) (q : Rat), d.value.isInt = false → pyFloat s = some q →
        RangeValue.from_config s d =
          (match RangeValue.init? (PyNum.f q) d.min_val d.max_val with
           | some r => Except.ok r
           | Option.none => Except.error (rangeMsg d))) := by
  refine ⟨?_, ?_, ?_, ?_⟩
  · intro value min_val max_val
    unfold RangeValue.init?
    split <;> simp_all
  · intro value min_val max_val r h
    unfold RangeValue.init? at h
    split at h
    · exact absurd h (by simp)
    · cases h; rfl
  · intro s d z hint hpy
    unfold RangeValue.from_config
    cases hI : RangeValue.init? (PyNum.i z) d.min_val d.max_val <;>
      simp [hint, hpy, hI]
  · intro s d q hflt hpy
    unfold RangeValue.from_config
    cases hI : RangeValue.init? (PyNum.f q) d.min_val d.max_val <;>
      simp [hflt, hpy, hI]

/-- Witness for C6: the `[split-video] rate-factor` default has an integer value, so
`from_config` parses `"23"` with the integer reader and the in-range result is
accepted. -/
theorem c6_range_value_witness :
    (RangeValue.mk (PyNum.i 22) (PyNum.i 0) (PyNum.i 100)).value.isInt = true ∧
    pyInt "23" = some 23 ∧
    RangeValue.from_config "23" (RangeValue.mk (PyNum.i 22) (PyNum.i 0) (PyNum.i 100)) =
      (match RangeValue.init? (PyNum.i 23) (PyNum.i 0) (PyNum.i 100) with
       | some r => Except.ok r
       | Option.none => Except.error (rangeMsg (RangeValue.mk (PyNum.i 22) (PyNum.i 0) (PyNum.i 100)))) :=
  ⟨rfl, by decide,
    c6_range_value.2.2.1 "23" (RangeValue.mk (PyNum.i 22) (PyNum.i 0) (PyNum.i 100)) 23 rfl (by decide)⟩

/-- C7: `KernelSizeValue` construction maps `-1` to the auto sentinel (`None`),
rejects every other negative input and every even input, and accepts every positive
odd input, storing it unchanged. -/
theorem c7_kernel_size :
    KernelSizeValue.init? (-1) = some Option.none
    ∧ (∀ v : Int, v ≠ -1 → (v < 0 ∨ v % 2 = 0) → KernelSizeValue.init? v = Option.none)
    ∧ (∀ v : Int, 0 < v → v % 2 = 1 → KernelSizeValue.init? v = some (some v)) := by
  refine ⟨rfl, ?_, ?_⟩
  · intro v h1 h2
    unfold KernelSizeValue.init?
    split_ifs with ha hb hc
    · exact absurd ha h1
    · rfl
    · rfl
    · omega
  · intro v h1 h2
    unfold KernelSizeValue.init?
    split_ifs with ha hb hc
    · omega
    · omega
    · omega
    · rfl

/-- Witness for C7: `0`, `-2`, `4` are rejected; `3`, `5` accepted. -/
theorem c7_kernel_size_witness :
    KernelSizeValue.init? 0 = Option.none ∧
    KernelSizeValue.init? (-2) = Option.none ∧
    KernelSizeValue.init? 4 = Option.none ∧
    KernelSizeValue.init? 3 = some (some 3) ∧
    KernelSizeValue.init? 5 = some (some 5) :=
  ⟨c7_kernel_size.2.1 0 (by decide) (Or.inr (by decide)),
   c7_kernel_size.2.1 (-2) (by decide) (Or.inl (by decide)),
   c7_kernel_size.2.1 4 (by decide) (Or.inr (by decide)),
   c7_kernel_size.2.2 3 (by decide) (by decide),
   c7_kernel_size.2.2 5 (by decide) (by decide)⟩

/-! ## Helper lemmas about the value parser -/

/-- Each schema option contributes at most one error string. -/
theorem parseOption_errs_le_one (config : RawConfig) (c o : String) (d : CfgValue)
    (e : Option CfgValue) (es : List String) :
    parseOption config c o d = Except.ok (e, es) → es.length ≤ 1 := by
  intro h
  unfold parseOption at h
  cases hR : rawLookup config c o with
  | none => rw [hR] at h; cases h; simp
  | some raw =>
    rw [hR] at h
    dsimp only at h
    cases d with
    | bool b =>
      dsimp only at h
      cases hG : getboolean raw <;> rw [hG] at h <;> cases h <;> simp
    | int z =>
      dsimp only at h
      cases hG : pyInt raw <;> rw [hG] at h <;> cases h <;> simp
    | float q =>
      dsimp only at h
      cases hG : pyFloat raw <;> rw [hG] at h <;> cases h <;> simp
    | enum ev =>
      dsimp only at h
      cases hG : enumLookup ev.cls (pyUpper (pyStrip (replaceNL raw))) <;>
        (rw [hG] at h; cases h <;> simp)
    | timecode t =>
      dsimp only at h
      cases hG : TimecodeValue.from_config raw <;> rw [hG] at h <;> cases h <;> simp
    | range r =>
      dsimp only at h
      cases hG : RangeValue.from_config raw r <;> rw [hG] at h <;> cases h <;> simp
    | weights w =>
      dsimp only at h
      cases hG : ScoreWeightsValue.from_config raw <;> rw [hG] at h <;> cases h <;> simp
    | kernel k =>
      dsimp only at h
      cases hG : KernelSizeValue.from_config raw <;> rw [hG] at h <;> cases h <;> simp
    | str s0 =>
      dsimp only at h
      cases hC : choiceLookup c o with
      | none => rw [hC] at h; dsimp only at h; cases h; simp
      | some choices =>
        rw [hC] at h
        dsimp only at h
        by_cases hM : choices.contains (pyLower (pyStrip (replaceNL raw))) = true
        · rw [if_pos hM] at h; cases h; simp
        · rw [if_neg hM] at h; cases h; simp
    | none =>
      dsimp only at h
      cases hC : choiceLookup c o with
      | none => rw [hC] at h; dsimp only at h; cases h; simp
      | some choices =>
        rw [hC] at h
        dsimp only at h
        by_cases hM : choices.contains (pyLower (pyStrip (replaceNL raw))) = true
        · rw [if_pos hM] at h; cases h; simp
        · rw [if_neg hM] at h; cases h; simp
    | components w =>
      dsimp only at h
      cases hC : choiceLookup c o with
      | none => rw [hC] at h; dsimp only at h; cases h; simp
      | some choices =>
        rw [hC] at h
        dsimp only at h
        by_cases hM : choices.contains (pyLower (pyStrip (replaceNL raw))) = true
        · rw [if_pos hM] at h; cases h; simp
        · rw [if_neg hM] at h; cases h; simp

/-- An option of a section absent from the file is skipped without error. -/
theorem parseOption_absent (config : RawConfig) (c o : String) (d : CfgValue)
    (h : config.lookup c = Option.none) :
    parseOption config c o d = Except.ok (Option.none, []) := by
  unfold parseOption rawLookup
  simp [h]

/-- A section absent from the file parses to an empty option map with no errors. -/
theorem parseSection_absent (config : RawConfig) (c : String)
    (h : config.lookup c = Option.none) :
    ∀ opts, parseSection config c opts = Except.ok ([], []) := by
  intro opts
  induction opts with
  | nil => rfl
  | cons od rest ih =>
    obtain ⟨o, d⟩ := od
    simp [parseSection, parseOption_absent config c o d h, ih]

/-- On a non-raising run, the error list of a section is the concatenation of the
per-option error lists, in schema order. -/
theorem parseSection_errors (config : RawConfig) (c : String) :
    ∀ (opts : List (String × CfgValue)) (m : List (String × CfgValue)) (es : List String),
      parseSection config c opts = Except.ok (m, es) →
      es = opts.flatMap (fun od => optionErrors config c od.1 od.2) := by
  intro opts
  induction opts with
  | nil => intro m es h; cases h; rfl
  | cons od rest ih =>
    obtain ⟨o, d⟩ := od
    intro m es h
    unfold parseSection at h
    cases hO : parseOption config c o d with
    | error e => rw [hO] at h; cases h
    | ok pr =>
      obtain ⟨entry, errs1⟩ := pr
      rw [hO] at h
      cases hR : parseSection config c rest with
      | error e => rw [hR] at h; cases h
      | ok pr2 =>
        obtain ⟨m2, errs2⟩ := pr2
        rw [hR] at h
        cases h
        simp [optionErrors, hO, ih m2 errs2 hR]

/-- On a non-raising run, the full error list is the concatenation over all schema
sections and options, in schema order (so every option is examined). -/
theorem parseConfigAux_errors (config : RawConfig) :
    ∀ (schema : List (String × List (String × CfgValue)))
      (m : List (String × List (String × CfgValue))) (es : List String),
      parseConfigAux config schema = Except.ok (m, es) →
      es = schema.flatMap (fun ce => ce.2.flatMap (fun od => optionErrors config ce.1 od.1 od.2)) := by
  intro schema
  induction schema with
  | nil => intro m es h; cases h; rfl
  | cons ce rest ih =>
    obtain ⟨c, opts⟩ := ce
    intro m es h
    unfold parseConfigAux at h
    cases hS : parseSection config c opts with
    | error e => rw [hS] at h; cases h
    | ok pr =>
      obtain ⟨m1, errs1⟩ := pr
      rw [hS] at h
      cases hR : parseConfigAux config rest with
      | error e => rw [hR] at h; cases h
      | ok pr2 =>
        obtain ⟨dict, errs2⟩ := pr2
        rw [hR] at h
        cases h
        simp [parseSection_errors config c opts m1 errs1 hS, ih dict errs2 hR]

/-- The resolved map always has one entry per schema section, in schema order. -/
theorem parseConfigAux_keys (config : RawConfig) :
    ∀ (schema : List (String × List (String × CfgValue)))
      (m : List (String × List (String × CfgValue))) (es : List String),
      parseConfigAux config schema = Except.ok (m, es) →
      m.map Prod.fst = schema.map Prod.fst := by
  intro schema
  induction schema with
  | nil => intro m es h; cases h; rfl
  | cons ce rest ih =>
    obtain ⟨c, opts⟩ := ce
    intro m es h
    unfold parseConfigAux at h
    cases hS : parseSection config c opts with
    | error e => rw [hS] at h; cases h
    | ok pr =>
      obtain ⟨m1, errs1⟩ := pr
      rw [hS] at h
      cases hR : parseConfigAux config rest with
      | error e => rw [hR] at h; cases h
      | ok pr2 =>
        obtain ⟨dict, errs2⟩ := pr2
        rw [hR] at h
        cases h
        simp [ih dict errs2 hR]

/-- A schema section that the file never mentions maps to the empty option map in
the parser's output. -/
theorem parseConfigAux_lookup_absent (config : RawConfig) :
    ∀ (schema : List (String × List (String × CfgValue)))
      (m : List (String × List (String × CfgValue))) (es : List String) (s : String),
      parseConfigAux config schema = Except.ok (m, es) →
      (schema.lookup s).isSome → config.lookup s = Option.none →
      m.lookup s = some [] := by
  intro schema
  induction schema with
  | nil => intro m es s h hIn; cases h; simp [List.lookup] at hIn
  | cons ce rest ih =>
    obtain ⟨c, opts⟩ := ce
    intro m es s h hIn hAbs
    unfold parseConfigAux at h
    cases hS : parseSection config c opts with
    | error e => rw [hS] at h; cases h
    | ok pr =>
      obtain ⟨m1, errs1⟩ := pr
      rw [hS] at h
      cases hR : parseConfigAux config rest with
      | error e => rw [hR] at h; cases h
      | ok pr2 =>
        obtain ⟨dict, errs2⟩ := pr2
        rw [hR] at h
        cases h
        by_cases hc : s = c
        · subst hc
          rw [parseSection_absent config s hAbs opts] at hS
          cases hS
          simp [List.lookup]
        · have hbeq : (s == c) = false := by simp [hc]
          simp only [List.lookup, hbeq] at hIn ⊢
          exact ih dict errs2 s hR hIn hAbs

/-! ## Helper lemmas about the registry load -/

/-- `loadContent` never touches the `_initialized` flag. -/
theorem loadContent_initialized (st : RegState) (content : Except String RawConfig) :
    (loadContent st content).1.initialized = st.initialized := by
  unfold loadContent
  cases content with
  | error msg => rfl
  | ok config =>
    dsimp only
    split
    · split
      · rfl
      · split <;> rfl
    · rfl

/-- `_load_from_disk` never touches the `_initialized` flag. -/
theorem load_from_disk_initialized (fs : FileSystem) (st : RegState) (path : Option String) :
    (_load_from_disk fs st path).1.initialized = st.initialized := by
  unfold _load_from_disk
  cases hp : pathTruthy path with
  | some p =>
    dsimp only
    cases hf : fs p with
    | none => rfl
    | some content => exact loadContent_initialized _ content
  | none =>
    dsimp only
    cases hf : fs CONFIG_FILE_PATH with
    | none => rfl
    | some content => exact loadContent_initialized _ content

/-- A normal return of `loadContent` means: no structural errors, and the value
parser returned with an empty error list, its map having been stored. -/
theorem loadContent_ok_parse (st st' : RegState) (config : RawConfig) :
    loadContent st (Except.ok config) = (st', LoadOutcome.ok) →
    ∃ m, _parse_config config = Except.ok (m, []) ∧ st'.config = m := by
  intro h
  unfold loadContent at h
  dsimp only at h
  by_cases hE : (_validate_structure config).isEmpty = true
  · rw [if_pos hE] at h
    cases hP : _parse_config config with
    | error e => rw [hP] at h; simp at h
    | ok pr =>
      obtain ⟨m, errors2⟩ := pr
      rw [hP] at h
      dsimp only at h
      by_cases hE2 : errors2.isEmpty = true
      · rw [if_pos hE2] at h
        have h2 : errors2 = [] := List.isEmpty_iff.mp hE2
        subst h2
        cases h
        exact ⟨m, rfl, rfl⟩
      · rw [if_neg hE2] at h
        simp at h
  · rw [if_neg hE] at h
    simp at h

/-- Resolving an explicit nonempty path against a present file reduces
`_load_from_disk` to `loadContent` on the info-logged state. -/
theorem load_from_disk_explicit (fs : FileSystem) (st : RegState) (p : String)
    (content : Except String RawConfig) (hp : p ≠ "") (hfs : fs p = some content) :
    _load_from_disk fs st (some p) =
      loadContent
        { st with init_log := st.init_log ++
            [(Logging.INFO, "Loading config from file:\n  " ++ p)] } content := by
  unfold _load_from_disk
  rw [show pathTruthy (some p) = some p from by simp [pathTruthy, hp]]
  dsimp only
  rw [hfs]

/-- With `throw_exception=False`, a `ConfigLoadFailure` without a `reason` leaves the
state exactly as `_load_from_disk` produced it, only flagged uninitialized. -/
theorem init_suppress_loadFailure_none (fs : FileSystem) (path : Option String)
    (st1 : RegState) :
    _load_from_disk fs ⟨[], [], false⟩ path = (st1, LoadOutcome.loadFailure Option.none) →
    ConfigRegistry.init fs path false =
      ({ st1 with initialized := false }, InitOutcome.normal) := by
  intro h
  unfold ConfigRegistry.init
  dsimp only
  rw [h]
  rfl

/-- A normal `_load_from_disk` return makes the registry initialized, whatever the
`throw_exception` mode. -/
theorem init_of_load_ok (fs : FileSystem) (path : Option String) (st1 : RegState)
    (te : Bool) :
    _load_from_disk fs ⟨[], [], false⟩ path = (st1, LoadOutcome.ok) →
    ConfigRegistry.init fs path te = ({ st1 with initialized := true }, InitOutcome.normal) := by
  intro h
  unfold ConfigRegistry.init
  dsimp only
  rw [h]

/-- Conversely, an initialized registry can only come from a normal
`_load_from_disk` return, whose resolved map it keeps. -/
theorem init_initialized_of (fs : FileSystem) (path : Option String) (te : Bool)
    (st : RegState) (oc : InitOutcome) :
    ConfigRegistry.init fs path te = (st, oc) → st.initialized = true →
    ∃ st1, _load_from_disk fs ⟨[], [], false⟩ path = (st1, LoadOutcome.ok) ∧
      st.config = st1.config := by
  intro h hInit
  unfold ConfigRegistry.init at h
  dsimp only at h
  cases hL : _load_from_disk fs ⟨[], [], false⟩ path with
  | mk st1 oc1 =>
    have hI1 : st1.initialized = false := by
      have := load_from_disk_initialized fs ⟨[], [], false⟩ path
      rw [hL] at this
      exact this
    rw [hL] at h
    cases oc1 with
    | ok =>
      cases h
      exact ⟨st1, rfl, rfl⟩
    | loadFailure r =>
      cases te with
      | true =>
        dsimp only at h
        rw [if_pos rfl] at h
        cases h
        rw [hI1] at hInit
        cases hInit
      | false =>
        dsimp only at h
        rw [if_neg (by simp)] at h
        cases r with
        | none => cases h; simp at hInit
        | some r0 => cases h; simp at hInit
    | uncaught e =>
      cases h
      rw [hI1] at hInit
      cases hInit

/-- Unwrapping a `ValidatedValue` never yields another wrapper. -/
theorem resolveValue_not_validated (v : CfgValue) (h : v.isValidated = true) :
    (resolveValue v).isValidated = false := by
  cases v with
  | timecode t => cases t <;> rfl
  | range r =>
    obtain ⟨v', mn, mx⟩ := r
    cases v' <;> rfl
  | weights w => rfl
  | kernel k => cases k <;> rfl
  | bool b => simp [CfgValue.isValidated] at h
  | int z => simp [CfgValue.isValidated] at h
  | float q => simp [CfgValue.isValidated] at h
  | str s0 => simp [CfgValue.isValidated] at h
  | none => simp [CfgValue.isValidated] at h
  | enum ev => simp [CfgValue.isValidated] at h
  | components w => simp [CfgValue.isValidated] at h

set_option maxRecDepth 4000

/-- C2: evaluating the value parser at a file whose enum-typed option
`[global] downscale-method` carries the non-member label `bogus` shows the `KeyError`
from the enum lookup escaping the parser — no "Must be one of" error entry is
recorded and no result map is produced, because the handler guarding the lookup
catches `TypeError`, which the lookup never raises. -/
theorem c2_enum_bad_label_raises :
    _parse_config rawBadEnum = Except.error (PyExn.keyError "BOGUS") := by rfl

/-- C3 (counterexample to the claim as stated): a structurally valid file whose one
invalid value is a bad enum label makes `_parse_config` raise instead of producing
one error entry for that option and examining the rest. -/
theorem c3_enum_bad_label_counterexample :
    _parse_config rawBadFilterMode = Except.error (PyExn.keyError "BOGUS") := by rfl

/-- C3 (amended): on every run of the value parser that returns (equivalently, in
which no enum-typed option carries a non-member label), the accumulated error list is
the in-order concatenation of the per-option error lists over the whole schema — so
every schema option is examined even after earlier errors — and each option
contributes at most one entry; in particular the concrete file with an out-of-range
threshold and a malformed boolean yields exactly two error entries. -/
theorem c3_error_accumulation :
    (∀ (config : RawConfig) (m : List (String × List (String × CfgValue))) (errs : List String),
        _parse_config config = Except.ok (m, errs) →
        errs = CONFIG_MAP.flatMap
          (fun ce => ce.2.flatMap (fun od => optionErrors config ce.1 od.1 od.2)))
    ∧ (∀ (config : RawConfig) (c o : String) (d : CfgValue) (e : Option CfgValue)
        (es : List String), parseOption config c o d = Except.ok (e, es) → es.length ≤ 1)
    ∧ (_parse_config rawTwoBad).toOption.map (fun pr => pr.2.length) = some 2 :=
  ⟨fun config m errs h => parseConfigAux_errors config CONFIG_MAP m errs h,
   fun config c o d e es h => parseOption_errs_le_one config c o d e es h,
   by rfl⟩

/-- Witness for C3 at a concrete option: the malformed boolean contributes exactly
its one error entry. -/
theorem c3_error_accumulation_witness :
    parseOption rawTwoBad "global" "drop-short-scenes" (CfgValue.bool false) =
      Except.ok (Option.none,
        [errNotValidMsg "global" "drop-short-scenes" "maybe" "yes/no value"]) ∧
    ([errNotValidMsg "global" "drop-short-scenes" "maybe" "yes/no value"]).length ≤ 1 :=
  ⟨by rfl,
   c3_error_accumulation.2.1 rawTwoBad "global" "drop-short-scenes" (CfgValue.bool false)
     Option.none [errNotValidMsg "global" "drop-short-scenes" "maybe" "yes/no value"] (by rfl)⟩

/-- C1 (counterexample): loading the default-location file
`[global]` / `frame-skip = 5` / `verbosity = bogus` with the exception suppressed is
a failed load (`initialized` is false), yet `config_dict` is not empty — it exposes
the successfully parsed `frame-skip = 5`, so accessors do not fall back entirely to
the schema defaults. -/
theorem c1_partial_map_counterexample :
    (ConfigRegistry.init fsMix Option.none false).2 = InitOutcome.normal ∧
    (ConfigRegistry.init fsMix Option.none false).1.initialized = false ∧
    (ConfigRegistry.init fsMix Option.none false).1.config ≠ [] ∧
    cfgLookup (ConfigRegistry.init fsMix Option.none false).1.config "global" "frame-skip" =
      some (CfgValue.int 5) :=
  ⟨rfl, rfl, by decide, rfl⟩

/-- C1 (amended): after a failed load with the exception suppressed the registry is
flagged uninitialized, but the resolved map is only guaranteed empty when the failure
was structural (the value parser never ran); when the failure came from value errors,
`self._config` was assigned the parser's map *before* the error check, so
`config_dict` exposes that partially parsed map. -/
theorem c1_no_partial_amended :
    ∀ (fs : FileSystem) (p : String) (config : RawConfig),
      p ≠ "" → fs p = some (Except.ok config) →
      ((_validate_structure config ≠ [] →
          (ConfigRegistry.init fs (some p) false).1.config = [] ∧
          (ConfigRegistry.init fs (some p) false).1.initialized = false)
       ∧ (_validate_structure config = [] →
          ∀ (m : List (String × List (String × CfgValue))) (errs : List String),
            _parse_config config = Except.ok (m, errs) → errs ≠ [] →
            (ConfigRegistry.init fs (some p) false).1.config = m ∧
            (ConfigRegistry.init fs (some p) false).1.initialized = false ∧
            (ConfigRegistry.init fs (some p) false).2 = InitOutcome.normal)) := by
  intro fs p config hp hfs
  have hL := load_from_disk_explicit fs ⟨[], [], false⟩ p (Except.ok config) hp hfs
  constructor
  · intro hE
    cases hEE : _validate_structure config with
    | nil => exact absurd hEE hE
    | cons a l =>
      have hLC : loadContent
          { (⟨[], [], false⟩ : RegState) with init_log := ([] : List (Nat × String)) ++
              [(Logging.INFO, "Loading config from file:\n  " ++ p)] } (Except.ok config) =
          (⟨[], [(Logging.INFO, "Loading config from file:\n  " ++ p)] ++
              (a :: l).map (fun s => (Logging.ERROR, s)), false⟩,
           LoadOutcome.loadFailure Option.none) := by
        simp [loadContent, hEE]
      have hI := init_suppress_loadFailure_none fs (some p) _ (hL.trans hLC)
      exact ⟨by rw [hI], by rw [hI]⟩
  · intro h0 m errs hP hNE
    cases hEs : errs with
    | nil => exact absurd hEs hNE
    | cons a l =>
      subst hEs
      have hLC : loadContent
          { (⟨[], [], false⟩ : RegState) with init_log := ([] : List (Nat × String)) ++
              [(Logging.INFO, "Loading config from file:\n  " ++ p)] } (Except.ok config) =
          (⟨m, [(Logging.INFO, "Loading config from file:\n  " ++ p)] ++
              (a :: l).map (fun s => (Logging.ERROR, s)), false⟩,
           LoadOutcome.loadFailure Option.none) := by
        simp [loadContent, h0, hP]
      have hI := init_suppress_loadFailure_none fs (some p) _ (hL.trans hLC)
      exact ⟨by rw [hI], by rw [hI], by rw [hI]⟩

/-- Witness for C1 (amended), structural branch: a file with only an unknown section
leaves the suppressed registry's map empty and the flag off. -/
theorem c1_no_partial_amended_witness :
    ("my.cfg" : String) ≠ "" ∧
    fsBogusAt "my.cfg" = some (Except.ok rawBogusSection) ∧
    _validate_structure rawBogusSection ≠ [] ∧
    (ConfigRegistry.init fsBogusAt (some "my.cfg") false).1.config = [] ∧
    (ConfigRegistry.init fsBogusAt (some "my.cfg") false).1.initialized = false :=
  ⟨by decide, rfl, by decide,
   ((c1_no_partial_amended fsBogusAt "my.cfg" rawBogusSection (by decide) rfl).1 (by decide)).1,
   ((c1_no_partial_amended fsBogusAt "my.cfg" rawBogusSection (by decide) rfl).1 (by decide)).2⟩

/-- C8: `get_value` on a schema option returns a non-absent override unconditionally;
otherwise the resolved-map entry when the file set the option, else the schema
default — in both cases unwrapping a `ValidatedValue` to its payload (never returning
the wrapper). -/
theorem c8_get_value :
    ∀ (st : RegState) (c o : String) (d : CfgValue), schemaLookup c o = some d →
      (∀ ov : CfgValue, ConfigRegistry.get_value st c o (some ov) = some ov)
      ∧ (∀ v : CfgValue, cfgLookup st.config c o = some v →
          ConfigRegistry.get_value st c o Option.none = some (resolveValue v))
      ∧ (cfgLookup st.config c o = Option.none →
          ConfigRegistry.get_value st c o Option.none = some (resolveValue d))
      ∧ (∀ v : CfgValue, v.isValidated = true → (resolveValue v).isValidated = false) := by
  intro st c o d hs
  have hsome : (schemaLookup c o).isSome = true := by rw [hs]; rfl
  refine ⟨?_, ?_, ?_, ?_⟩
  · intro ov
    simp [ConfigRegistry.get_value, hsome]
  · intro v hv
    simp [ConfigRegistry.get_value, hsome, hv]
  · intro hv
    simp [ConfigRegistry.get_value, hsome, hv, hs]
  · intro v hv
    exact resolveValue_not_validated v hv

/-- Witness for C8 on `[global] frame-skip` with an empty registry: the override
wins, and without an override the schema default is returned. -/
theorem c8_get_value_witness :
    schemaLookup "global" "frame-skip" = some (CfgValue.int 0) ∧
    cfgLookup regEmpty.config "global" "frame-skip" = Option.none ∧
    ConfigRegistry.get_value regEmpty "global" "frame-skip" (some (CfgValue.int 7)) =
      some (CfgValue.int 7) ∧
    ConfigRegistry.get_value regEmpty "global" "frame-skip" Option.none =
      some (resolveValue (CfgValue.int 0)) :=
  ⟨by rfl, rfl,
   (c8_get_value regEmpty "global" "frame-skip" (CfgValue.int 0) (by rfl)).1 (CfgValue.int 7),
   (c8_get_value regEmpty "global" "frame-skip" (CfgValue.int 0) (by rfl)).2.2.1 rfl⟩

/-- C9: constructing the registry with no explicit path when no file exists at the
per-user default location succeeds: `initialized` is true, the resolved map is empty,
and the log is exactly one debug entry. -/
theorem c9_no_default_file :
    ∀ (fs : FileSystem) (te : Bool), fs CONFIG_FILE_PATH = Option.none →
      ConfigRegistry.init fs Option.none te =
        ({ config := [], init_log := [(Logging.DEBUG, "User config file not found.")],
           initialized := true }, InitOutcome.normal) := by
  intro fs te h
  have hL : _load_from_disk fs ⟨[], [], false⟩ Option.none =
      (⟨[], [(Logging.DEBUG, "User config file not found.")], false⟩, LoadOutcome.ok) := by
    unfold _load_from_disk pathTruthy
    rw [h]
    rfl
  exact init_of_load_ok fs Option.none _ te hL

/-- Witness for C9 on the empty file system. -/
theorem c9_no_default_file_witness :
    fsNone CONFIG_FILE_PATH = Option.none ∧
    ConfigRegistry.init fsNone Option.none true =
      ({ config := [], init_log := [(Logging.DEBUG, "User config file not found.")],
         initialized := true }, InitOutcome.normal) :=
  ⟨rfl, c9_no_default_file fsNone true rfl⟩

/-- C10: after every successful load of an existing file, the resolved map has an
entry for every schema section — its key list is exactly the schema's section list,
and a schema section the file never mentions is mapped to the empty option map. -/
theorem c10_all_sections_present :
    ∀ (fs : FileSystem) (p : String) (te : Bool) (config : RawConfig)
      (st : RegState) (oc : InitOutcome),
      fs p = some (Except.ok config) → p ≠ "" →
      ConfigRegistry.init fs (some p) te = (st, oc) → st.initialized = true →
      (st.config.map Prod.fst = CONFIG_MAP.map Prod.fst
       ∧ ∀ s : String, (CONFIG_MAP.lookup s).isSome → config.lookup s = Option.none →
           st.config.lookup s = some []) := by
  intro fs p te config st oc hfs hp hInit hItrue
  obtain ⟨st1, hL, hcfg⟩ := init_initialized_of fs (some p) te st oc hInit hItrue
  rw [load_from_disk_explicit fs ⟨[], [], false⟩ p (Except.ok config) hp hfs] at hL
  obtain ⟨m, hP, hm⟩ := loadContent_ok_parse _ st1 config hL
  constructor
  · rw [hcfg, hm]
    exact parseConfigAux_keys config CONFIG_MAP m [] hP
  · intro s hIn hAbs
    rw [hcfg, hm]
    exact parseConfigAux_lookup_absent config CONFIG_MAP m [] s hP hIn hAbs

/-- Witness for C10: a clean one-option file produces a map whose keys are the whole
schema section list, with `[detect-hist]` (never mentioned) present and empty. -/
theorem c10_all_sections_present_witness :
    fsCleanAt "my.cfg" = some (Except.ok [("global", [("frame-skip", "5")])]) ∧
    ("my.cfg" : String) ≠ "" ∧
    (ConfigRegistry.init fsCleanAt (some "my.cfg") true).1.initialized = true ∧
    (ConfigRegistry.init fsCleanAt (some "my.cfg") true).1.config.map Prod.fst =
      CONFIG_MAP.map Prod.fst ∧
    (ConfigRegistry.init fsCleanAt (some "my.cfg") true).1.config.lookup "detect-hist" =
      some [] :=
  ⟨rfl, by decide, by rfl,
   (c10_all_sections_present fsCleanAt "my.cfg" true [("global", [("frame-skip", "5")])]
      (ConfigRegistry.init fsCleanAt (some "my.cfg") true).1
      (ConfigRegistry.init fsCleanAt (some "my.cfg") true).2 rfl (by decide) rfl (by rfl)).1,
   (c10_all_sections_present fsCleanAt "my.cfg" true [("global", [("frame-skip", "5")])]
      (ConfigRegistry.init fsCleanAt (some "my.cfg") true).1
      (ConfigRegistry.init fsCleanAt (some "my.cfg") true).2 rfl (by decide) rfl (by rfl)).2
     "detect-hist" (by rfl) (by rfl)⟩
